import Mathlib

/-!
Verification of the MediaMapMaker merge-and-render pipeline.

The definitions below are a shallow embedding of `csv_to_map.py`:

* the categorizers (marker-side in `create_html_map`, sidebar-side in
  `add_sidebar_to_html`),
* the client-side filter engine (`applyFilters` in the generated script),
* the chronological sidebar tree builder,
* the coordinate-based row normalization (`dropna` on the two coordinate
  columns), and
* the per-row marker rendering loop with its try/except row skipping.

Machine reals are modelled by `Int` (only order and equality of coordinates
and timestamps matter to the embedded logic, never arithmetic), Python/JS
strings by `String`, missing values by `Option`.
-/

namespace MediaMapMaker

/-- The four mutually exclusive display categories. -/
inductive MType where
  | image
  | video
  | att_location
  | ankle_monitor
deriving DecidableEq, Repr

/-! ### String helpers

Python `in` (substring test), `str.lower`, and `pathlib.Path.suffix`. -/

/-- Boolean list-prefix test (helper for the substring test). -/
def listStartsWith : List Char → List Char → Bool
  | [], _ => true
  | _ :: _, [] => false
  | a :: as, b :: bs => a == b && listStartsWith as bs

/-- Does `needle` occur as a contiguous sublist of `hay`?  (Python `in`.) -/
def occursIn (needle : List Char) : List Char → Bool
  | [] => listStartsWith needle []
  | c :: rest => listStartsWith needle (c :: rest) || occursIn needle rest

/-- Python `needle in hay` on strings. -/
def strContains (hay needle : String) : Bool :=
  occursIn needle.data hay.data

/-- Python `str.lower()` (ASCII case folding, which is all the source uses). -/
def lowerStr (s : String) : String :=
  ⟨s.data.map Char.toLower⟩

/-- The final path component (`pathlib.Path(...).name`): everything after the
last `/` or `\` separator. -/
def pathName (s : String) : List Char :=
  s.data.foldl (fun acc c => if c = '/' || c = '\\' then [] else acc ++ [c]) []

/-- Index of the last occurrence of `c` (Python `str.rfind`), `none` if absent. -/
def rfindIdx (c : Char) : List Char → Option Nat
  | [] => none
  | a :: rest =>
    match rfindIdx c rest with
    | some i => some (i + 1)
    | none => if a = c then some 0 else none

/-- `pathlib.Path(s).suffix`: the extension of the final component, including
the dot, provided the last dot is neither the first character of the name nor
its last character; otherwise the empty string. -/
def pathSuffix (s : String) : String :=
  let name := pathName s
  match rfindIdx '.' name with
  | some i => if 0 < i ∧ i < name.length - 1 then ⟨name.drop i⟩ else ""
  | none => ""

/-! ### Categorizers

Marker-side (`create_html_map`): the extension set is consulted only inside
the `if file_path.exists():` branch, so `is_video_marker` stays `False`
whenever the referenced file is absent.

Sidebar-side (`add_sidebar_to_html`): a bare substring test of four
extensions anywhere in the lowercased media path, with no existence check. -/

/-- The marker-side video extension set (checked against `Path.suffix.lower()`). -/
def videoExts : List String :=
  [".mp4", ".mov", ".avi", ".wmv", ".mkv", ".webm", ".m4v"]

/-- The marker-side image extension set (used for the stats counters). -/
def imageExts : List String :=
  [".jpg", ".jpeg", ".png", ".gif", ".bmp", ".tiff", ".tif"]

/-- `media_path and media_path != 'nan'`: the row has a media reference. -/
def mediaPathGiven (p : String) : Bool :=
  (p != "") && (p != "nan")

/-- `is_video_marker` as computed in the marker loop: initialized `False`,
assigned from the extension test only when the file exists. -/
def markerIsVideo (p : String) (fileOnDisk : Bool) : Bool :=
  if mediaPathGiven p then
    if fileOnDisk then videoExts.contains (lowerStr (pathSuffix p)) else false
  else false

/-- The category stored in `marker_data` / the target cluster choice. -/
def markerType (dataSource title p : String) (fileOnDisk : Bool) : MType :=
  if dataSource = "MasterMapData" then
    if strContains title "ATT Location" then .att_location else .ankle_monitor
  else if markerIsVideo p fileOnDisk then .video else .image

/-- The sidebar substring list: `['.mp4', '.mov', '.avi', '.wmv']`. -/
def sidebarVideoSubs : List String :=
  [".mp4", ".mov", ".avi", ".wmv"]

/-- Sidebar classification of a media record:
`'video' if any(ext in item['path'].lower() for ext in [...]) else 'image'`. -/
def sidebarMediaType (p : String) : MType :=
  if sidebarVideoSubs.any (fun ext => strContains (lowerStr p) ext) then .video
  else .image

/-- The `file_type` assigned to a sidebar `.file-item`. -/
def sidebarFileType (dataSource title p : String) : MType :=
  if dataSource = "MasterMapData" then
    if strContains title "ATT Location" then .att_location else .ankle_monitor
  else sidebarMediaType p

/-! ### Client-side filter engine

The state read by `applyFilters`: the three media radio buttons, the two
event checkboxes, and the two optional `datetime-local` bounds.  A JS `Date`
value is either a point on the timeline or `NaN` (`Invalid Date`), and every
order comparison against `NaN` is false.  A `data-datetime` attribute is
either the empty string (falsy, so the whole time check is skipped) or a
nonempty string together with its `new Date(...)` parse. -/

/-- Filter control state, as read at the top of `applyFilters`. -/
structure FilterState where
  showBoth : Bool
  showImages : Bool
  showVideos : Bool
  showATT : Bool
  showAnkle : Bool
  timeStart : Option Int
  timeEnd : Option Int
deriving DecidableEq, Repr

/-- A JS `Date` value: a timeline point, or `Invalid Date`. -/
inductive JSDate where
  | nan
  | val (t : Int)
deriving DecidableEq, Repr

/-- A `data-datetime` attribute: empty string, or a nonempty string recorded
together with its `new Date(...)` parse result. -/
inductive DateAttr where
  | empty
  | given (d : JSDate)
deriving DecidableEq, Repr

/-- `itemDate < new Date(timeStart)`; false when the item date is `NaN`. -/
def jsBefore : JSDate → Int → Bool
  | .nan, _ => false
  | .val t, s => decide (t < s)

/-- `itemDate > new Date(timeEnd)`; false when the item date is `NaN`. -/
def jsAfter : JSDate → Int → Bool
  | .nan, _ => false
  | .val t, e => decide (e < t)

/-- `timeStart || timeEnd`: at least one bound is set. -/
def timeFilterOn (fs : FilterState) : Bool :=
  fs.timeStart.isSome || fs.timeEnd.isSome

/-- The `typeMatch` computation: the media radio rule, overridden entirely by
the corresponding checkbox for the two event categories. -/
def typeMatch (fs : FilterState) (t : MType) : Bool :=
  let m := fs.showBoth || (t == MType.image && fs.showImages)
    || (t == MType.video && fs.showVideos)
  match t with
  | .att_location => fs.showATT
  | .ankle_monitor => fs.showAnkle
  | _ => m

/-- The `timeMatch` computation: starts `true`; only a nonempty
`data-datetime` with at least one bound set can flip it to `false`. -/
def timeMatch (fs : FilterState) (dt : DateAttr) : Bool :=
  match dt with
  | .empty => true
  | .given d =>
    if timeFilterOn fs then
      (match fs.timeStart with
       | some s => !(jsBefore d s)
       | none => true)
      &&
      (match fs.timeEnd with
       | some e => !(jsAfter d e)
       | none => true)
    else true

/-- `shouldShow = typeMatch && timeMatch` for one record reference. -/
def shouldShow (fs : FilterState) (t : MType) (dt : DateAttr) : Bool :=
  typeMatch fs t && timeMatch fs dt

/-- The per-cluster toggle: the re-add condition of the time-filter branch and
the layer on/off condition of the cheap branch are the same expression. -/
def toggleOK (fs : FilterState) : MType → Bool
  | .image => fs.showImages || fs.showBoth
  | .video => fs.showVideos || fs.showBoth
  | .att_location => fs.showATT
  | .ankle_monitor => fs.showAnkle

/-- One sidebar `.file-item`, with its data attributes. -/
structure FileItem where
  dtype : MType
  ddatetime : DateAttr
  lat : Int
  lon : Int
deriving DecidableEq, Repr

/-- One entry of `window.allMarkers`. -/
structure MarkerInfo where
  mtype : MType
  mdatetime : DateAttr
  lat : Int
  lon : Int
deriving DecidableEq, Repr

/-- The immutable data embedded in the generated document. -/
structure Page where
  fileItems : List FileItem
  allMarkers : List MarkerInfo
deriving DecidableEq, Repr

/-- The mutable presentation state `applyFilters` manipulates: cluster
membership, the four cluster-on-map flags, and the per-item display styles. -/
structure VisState where
  inCluster : List MarkerInfo
  imageOn : Bool
  videoOn : Bool
  attOn : Bool
  ankleOn : Bool
  itemDisplay : List Bool
deriving DecidableEq, Repr

/-- `filteredCoords`: the coordinate keys of the sidebar items passing both
filters (built only on the time-filter branch). -/
def filteredCoords (fs : FilterState) (page : Page) : List (Int × Int) :=
  (page.fileItems.filter (fun it => shouldShow fs it.dtype it.ddatetime)).map
    (fun it => (it.lat, it.lon))

/-- One run of `applyFilters`.  With a time bound set, cluster membership is
cleared and rebuilt from `allMarkers` and every cluster is put on the map;
otherwise membership is left untouched and whole clusters are added to or
removed from the map.  Sidebar item display is recomputed either way. -/
def applyFilters (fs : FilterState) (page : Page) (prev : VisState) : VisState :=
  let itemVis := page.fileItems.map (fun it => shouldShow fs it.dtype it.ddatetime)
  if timeFilterOn fs then
    let fc := filteredCoords fs page
    { inCluster := page.allMarkers.filter
        (fun m => decide ((m.lat, m.lon) ∈ fc) && toggleOK fs m.mtype),
      imageOn := true, videoOn := true, attOn := true, ankleOn := true,
      itemDisplay := itemVis }
  else
    { inCluster := prev.inCluster,
      imageOn := toggleOK fs MType.image,
      videoOn := toggleOK fs MType.video,
      attOn := toggleOK fs MType.att_location,
      ankleOn := toggleOK fs MType.ankle_monitor,
      itemDisplay := itemVis }

/-- Whether the cluster holding markers of type `t` is on the map. -/
def clusterShown (v : VisState) : MType → Bool
  | .image => v.imageOn
  | .video => v.videoOn
  | .att_location => v.attOn
  | .ankle_monitor => v.ankleOn

/-- A marker is visible when it is a member of its cluster and that cluster is
on the map. -/
def markerVisibleIn (v : VisState) (m : MarkerInfo) : Bool :=
  decide (m ∈ v.inCluster) && clusterShown v m.mtype

/-- The state of the freshly generated document: every marker in its cluster,
every cluster on the map, every sidebar item displayed. -/
def initialVis (page : Page) : VisState :=
  { inCluster := page.allMarkers,
    imageOn := true, videoOn := true, attOn := true, ankleOn := true,
    itemDisplay := page.fileItems.map (fun _ => true) }

/-- One pipeline record as it reaches the client: the generator renders the
same row once as a sidebar item (typed by `sidebarFileType`) and once as a
marker (typed by `markerType`), both carrying the row's datetime string and
coordinates. -/
structure ClientRecord where
  sidebarT : MType
  markerT : MType
  rdatetime : DateAttr
  lat : Int
  lon : Int
deriving DecidableEq, Repr

/-- The sidebar `.file-item` rendered for a record. -/
def itemOf (r : ClientRecord) : FileItem :=
  ⟨r.sidebarT, r.rdatetime, r.lat, r.lon⟩

/-- The `allMarkers` entry rendered for a record. -/
def markerOf (r : ClientRecord) : MarkerInfo :=
  ⟨r.markerT, r.rdatetime, r.lat, r.lon⟩

/-- The coordinate identity key of a record. -/
def coordsOf (r : ClientRecord) : Int × Int :=
  (r.lat, r.lon)

/-- The document generated for a list of records. -/
def pageOf (rs : List ClientRecord) : Page :=
  ⟨rs.map itemOf, rs.map markerOf⟩

/-! ### Chronological sidebar tree (`add_sidebar_to_html`)

Per row: when the (coerced) `datetime` value is present it supplies both the
`%Y-%m-%d` date key and the `%H:%M:%S` time key; otherwise the date key is
the stringified `date` cell (a pandas `NaN` stringifies to `"nan"`, and an
absent `date` column yields the literal `'Unknown Date'`) and the time key is
the stringified `time` cell.  A row is appended to `tree[date][time]` only
when its date string is nonempty and different from `'nan'`. -/

/-- One row of the merged dataframe, as read by the sidebar builder.
`datetimeParsed` is `some (d, t)` when the `datetime` cell is present and
coerces, recorded as its formatted date and time strings; `dateCell` is
`none` when the `date` column is absent from the dataframe and otherwise the
stringified cell value (so `"nan"` for a missing date). -/
structure SRow where
  datetimeParsed : Option (String × String)
  dateCell : Option String
  timeCell : String
  stitle : String
deriving DecidableEq, Repr

/-- The date key chosen for a row. -/
def rowDate (r : SRow) : String :=
  match r.datetimeParsed with
  | some (d, _) => d
  | none =>
    match r.dateCell with
    | some s => s
    | none => "Unknown Date"

/-- The time key chosen for a row. -/
def rowTime (r : SRow) : String :=
  match r.datetimeParsed with
  | some (_, t) => t
  | none => r.timeCell

/-- `if date and date != 'nan'`: the guard under which a row enters the tree. -/
def rowKept (r : SRow) : Bool :=
  (rowDate r != "") && (rowDate r != "nan")

/-- The date → time → rows tree (`OrderedDict` of `OrderedDict` of lists). -/
abbrev SideTree := List (String × List (String × List SRow))

/-- Append a row under an existing time key, or create the key at the end
(`OrderedDict` insertion order). -/
def insertTime (tm : String) (r : SRow) : List (String × List SRow) → List (String × List SRow)
  | [] => [(tm, [r])]
  | (k, ls) :: rest =>
    if k = tm then (k, ls ++ [r]) :: rest else (k, ls) :: insertTime tm r rest

/-- Append a row under an existing date key, or create the key at the end. -/
def insertLeaf (d tm : String) (r : SRow) : SideTree → SideTree
  | [] => [(d, [(tm, [r])])]
  | (k, ts) :: rest =>
    if k = d then (k, insertTime tm r ts) :: rest else (k, ts) :: insertLeaf d tm r rest

/-- The tree built by one pass over the (sorted) rows. -/
def buildTree (rows : List SRow) : SideTree :=
  rows.foldl
    (fun t r => if rowKept r then insertLeaf (rowDate r) (rowTime r) r t else t) []

/-- Number of leaves under one date group. -/
def timesLeafCount (ts : List (String × List SRow)) : Nat :=
  (ts.map (fun p => p.2.length)).sum

/-- Total number of leaves of the tree. -/
def leafCount (t : SideTree) : Nat :=
  (t.map (fun p => timesLeafCount p.2)).sum

/-! ### Coordinate normalization (`create_html_map`)

`df = df.dropna(subset=[lat_col, lon_col])`: rows missing either coordinate
are removed, counted by the difference in lengths; nothing raises. -/

/-- One raw merged row; `none` models a missing (`NaN`) coordinate cell and
`payload` stands for all remaining columns. -/
structure RawRow where
  rlat : Option Int
  rlon : Option Int
  payload : String
deriving DecidableEq, Repr

/-- Both coordinates present (`notna`). -/
def hasCoords (r : RawRow) : Bool :=
  r.rlat.isSome && r.rlon.isSome

/-- `df.dropna(subset=[lat_col, lon_col])`. -/
def dropnaCoords (rows : List RawRow) : List RawRow :=
  rows.filter hasCoords

/-- Multiplicity of a row value in a row list. -/
def rowCount (rows : List RawRow) (r : RawRow) : Nat :=
  rows.countP (fun x => decide (x = r))

/-! ### Marker rendering loop (`create_html_map`)

Each iteration runs inside `try: ... except Exception: warn; continue`, so a
row whose conversion raises contributes nothing and the loop moves on.  The
conversions that can raise (`float(...)` on the coordinate and accuracy
cells) all happen before any marker is created. -/

/-- A non-null cell fed to Python `float(...)`: already numeric, or a string
that parses or raises `ValueError`. -/
inductive NumCell where
  | num (x : Int)
  | strv (s : String)
deriving DecidableEq, Repr

/-- ASCII decimal digit test. -/
def isDigitChar (c : Char) : Bool :=
  decide ('0' ≤ c) && decide (c ≤ '9')

/-- Numeric value of an ASCII digit. -/
def charDigit (c : Char) : Nat :=
  c.toNat - '0'.toNat

/-- Left-to-right accumulation of a digit run; `none` on any non-digit. -/
def digitsToNatGo (acc : Nat) : List Char → Option Nat
  | [] => some acc
  | c :: rest =>
    if isDigitChar c then digitsToNatGo (acc * 10 + charDigit c) rest else none

/-- Parse of a numeric string (optional leading minus then digits); `none`
models the `ValueError` Python `float(...)` raises on anything else. -/
def pyParseNum (s : String) : Option Int :=
  match s.data with
  | [] => none
  | '-' :: rest =>
    if rest = [] then none
    else (digitsToNatGo 0 rest).map (fun n => -(n : Int))
  | cs => (digitsToNatGo 0 cs).map (fun n => (n : Int))

/-- Python `float(cell)` as a fallible conversion. -/
def pyFloat : NumCell → Except String Int
  | .num x => .ok x
  | .strv s =>
    match pyParseNum s with
    | some x => .ok x
    | none => .error s

/-- The per-row inputs of one marker-loop iteration. -/
structure MRow where
  latCell : NumCell
  lonCell : NumCell
  accuracyCell : Option NumCell
  mtitle : String
  mediaPath : String
  fileOnDisk : Bool
  mdataSource : String
  mdatetime : String
deriving DecidableEq, Repr

/-- `float(row.get('accuracy_meters', 0)) if ... else 0`. -/
def getAccuracy (r : MRow) : Except String Int :=
  match r.accuracyCell with
  | none => .ok 0
  | some c => pyFloat c

/-- One `marker_data` entry. -/
structure MarkerRec where
  klat : Int
  klon : Int
  ktype : MType
  kdatetime : String
  ktitle : String
deriving DecidableEq, Repr

/-- The body of one loop iteration: every fallible conversion, then the
rendered marker record. -/
def renderRow (r : MRow) : Except String MarkerRec := do
  let lat ← pyFloat r.latCell
  let lon ← pyFloat r.lonCell
  let _ ← getAccuracy r
  .ok { klat := lat, klon := lon,
        ktype := markerType r.mdataSource r.mtitle r.mediaPath r.fileOnDisk,
        kdatetime := r.mdatetime, ktitle := r.mtitle }

/-- The marker loop: accumulate rendered markers, count warned-and-skipped
rows, never abort. -/
def addMarkersLoop (rows : List MRow) : List MarkerRec × Nat :=
  rows.foldl
    (fun acc r =>
      match renderRow r with
      | .ok m => (acc.1 ++ [m], acc.2)
      | .error _ => (acc.1, acc.2 + 1))
    ([], 0)

/-! ### Concrete instances used by witnesses and counterexamples. -/

/-- Media selector on videos-only, both event toggles on, no bounds. -/
def fsVideosOnly : FilterState := ⟨false, false, true, true, true, none, none⟩

/-- A record referencing an existing `.mkv` file: the sidebar classifies it
`image`, the marker loop classifies it `video`. -/
def recMkv : ClientRecord :=
  ⟨sidebarFileType "MediaMarkers" "clip" "clip.mkv",
   markerType "MediaMarkers" "clip" "clip.mkv" true, DateAttr.empty, 1, 1⟩

/-- Images-only with the time range [0, 10] active. -/
def fsImagesTime : FilterState := ⟨false, true, false, true, true, some 0, some 10⟩

/-- An image record timestamped inside the [0, 10] range. -/
def recEarly : ClientRecord := ⟨MType.image, MType.image, .given (.val 5), 2, 2⟩

/-- An image record at the same coordinates as `recEarly`, timestamped
outside the range. -/
def recLate : ClientRecord := ⟨MType.image, MType.image, .given (.val 99), 2, 2⟩

/-- Images-only, ATT toggle off, time range [0, 10] active. -/
def fsSym : FilterState := ⟨false, true, false, false, true, some 0, some 10⟩

/-- A well-behaved record: equal classifications on both sides. -/
def recSym : ClientRecord := ⟨MType.image, MType.image, .given (.val 5), 7, 8⟩

/-- Show-all with only a start bound set. -/
def fsStartOnly : FilterState := ⟨true, false, false, true, true, some 0, none⟩

/-- Show-all media selector, ATT toggle off, ankle toggle on, no bounds. -/
def fsC6 : FilterState := ⟨true, false, false, false, true, none, none⟩

/-- An ATT-location event record. -/
def recATT : ClientRecord := ⟨MType.att_location, MType.att_location, DateAttr.empty, 3, 3⟩

/-- Bounds 09:00–11:00 of 2023-05-01, encoded as minutes of that day. -/
def fsBounds : FilterState := ⟨true, false, false, true, true, some 540, some 660⟩

/-- A merged row with no datetime whose `date` cell is pandas `NaN`
(stringified `"nan"`). -/
def rowNanDate : SRow := ⟨none, some "nan", "", "IMG_001"⟩

/-- A renderable media row. -/
def mrowGood : MRow := ⟨.num 10, .num 20, none, "a", "a.jpg", true, "MediaMarkers", ""⟩

/-- A renderable event row. -/
def mrowGood2 : MRow :=
  ⟨.num 30, .num 40, some (.num 25), "ATT Location fix", "", false,
   "MasterMapData", "2023-05-01 10:00:00"⟩

/-- A row whose latitude cell is a non-numeric string, so `float(...)` raises. -/
def mrowBad : MRow := ⟨.strv "abc", .num 0, none, "b", "", false, "MediaMarkers", ""⟩

example : markerType "MediaMarkers" "t" "clip.mkv" true = .video := by decide
example : markerType "MediaMarkers" "t" "clip.mkv" false = .image := by decide
example : sidebarFileType "MediaMarkers" "t" "clip.mkv" = .image := by decide
example : sidebarFileType "MediaMarkers" "t" "shot.mp4.jpg" = .video := by decide
example : sidebarFileType "MasterMapData" "ATT Location ping" "" = .att_location := by decide
example : pathSuffix "C:\\Users\\m\\a.MP4" = ".MP4" := by decide

/-! ### Supporting lemmas -/

/-- The media-radio `typeMatch` expression and the per-cluster toggle agree on
every category. -/
theorem typeMatch_eq_toggleOK (fs : FilterState) (t : MType) :
    typeMatch fs t = toggleOK fs t := by
  obtain ⟨b, i, v, a, k, s, e⟩ := fs
  cases t <;> cases b <;> cases i <;> cases v <;> simp [typeMatch, toggleOK]

/-- With no bound set, `timeMatch` is `true` on every datetime attribute. -/
theorem timeMatch_inactive (fs : FilterState) (dt : DateAttr)
    (h : timeFilterOn fs = false) : timeMatch fs dt = true := by
  cases dt <;> simp [timeMatch, h]

/-- On the cheap (no-time-bound) branch the cluster on-map flags equal the
toggles. -/
theorem clusterShown_cheap (fs : FilterState) (page : Page) (prev : VisState)
    (h : timeFilterOn fs = false) (t : MType) :
    clusterShown (applyFilters fs page prev) t = toggleOK fs t := by
  cases t <;> simp [applyFilters, h, clusterShown]

/-- On the time-bound branch every cluster is (re)put on the map. -/
theorem clusterShown_rebuild (fs : FilterState) (page : Page) (prev : VisState)
    (h : timeFilterOn fs = true) (t : MType) :
    clusterShown (applyFilters fs page prev) t = true := by
  cases t <;> simp [applyFilters, h, clusterShown]

/-- `itemDisplay` after a run is the per-record `shouldShow`, in page order. -/
theorem itemDisplay_applyFilters (fs : FilterState) (rs : List ClientRecord)
    (prev : VisState) :
    (applyFilters fs (pageOf rs) prev).itemDisplay
      = rs.map (fun r => shouldShow fs r.sidebarT r.rdatetime) := by
  by_cases h : timeFilterOn fs = true <;>
    simp [applyFilters, pageOf, h, List.map_map] <;>
    exact fun a _ => rfl

/-- With pairwise distinct coordinates, a record's coordinate key is collected
into `filteredCoords` exactly when the record itself passes both filters. -/
theorem mem_filteredCoords_iff (fs : FilterState) (rs : List ClientRecord)
    (huniq : (rs.map coordsOf).Nodup) (r : ClientRecord) (hr : r ∈ rs) :
    coordsOf r ∈ filteredCoords fs (pageOf rs)
      ↔ shouldShow fs r.sidebarT r.rdatetime = true := by
  unfold filteredCoords pageOf
  constructor
  · intro h
    rcases List.mem_map.mp h with ⟨it, hit, hco⟩
    rcases List.mem_filter.mp hit with ⟨hmem, hpass⟩
    rcases List.mem_map.mp hmem with ⟨r2, hr2, hitr⟩
    subst hitr
    have hco2 : coordsOf r2 = coordsOf r := hco
    have hrr : r2 = r := List.inj_on_of_nodup_map huniq hr2 hr hco2
    subst hrr
    exact hpass
  · intro h
    apply List.mem_map.mpr
    refine ⟨itemOf r, ?_, rfl⟩
    exact List.mem_filter.mpr ⟨List.mem_map_of_mem itemOf hr, h⟩

/-- Generalized accumulator form of the marker loop. -/
theorem markersLoop_go (rows : List MRow) (acc : List MarkerRec) (w : Nat) :
    rows.foldl
      (fun a r =>
        match renderRow r with
        | .ok m => (a.1 ++ [m], a.2)
        | .error _ => (a.1, a.2 + 1)) (acc, w)
      = (acc ++ rows.filterMap (fun r => (renderRow r).toOption),
         w + (rows.filter (fun r => (renderRow r).toOption.isNone)).length) := by
  induction rows generalizing acc w with
  | nil => simp
  | cons r rows ih =>
    simp only [List.foldl_cons]
    cases h : renderRow r with
    | ok m =>
      simp [h, ih, List.filterMap_cons, List.filter_cons, Except.toOption]
    | error e =>
      rw [ih]
      simp [h, List.filterMap_cons, List.filter_cons, Except.toOption, Prod.mk.injEq]
      omega

/-- The marker loop keeps exactly the rows whose rendering succeeds and
counts one warning per failing row. -/
theorem addMarkersLoop_eq (rows : List MRow) :
    addMarkersLoop rows
      = (rows.filterMap (fun r => (renderRow r).toOption),
         (rows.filter (fun r => (renderRow r).toOption.isNone)).length) := by
  simpa [addMarkersLoop] using markersLoop_go rows [] 0

/-- Dropping null-coordinate rows preserves the multiplicity of every
coordinate-complete row and removes every other row. -/
theorem rowCount_dropna (rows : List RawRow) (r : RawRow) :
    rowCount (dropnaCoords rows) r
      = if hasCoords r then rowCount rows r else 0 := by
  induction rows with
  | nil => cases h : hasCoords r <;> simp [rowCount, dropnaCoords, h]
  | cons a rows ih =>
    simp only [rowCount, dropnaCoords] at ih ⊢
    by_cases hav : a = r
    · subst hav
      cases h : hasCoords a <;>
        simp [List.filter_cons, List.countP_cons, h, ih]
    · cases h : hasCoords a <;> cases h2 : hasCoords r <;>
        simp [List.filter_cons, List.countP_cons, h, h2, hav, ih]

/-- Appending a row to a time group adds exactly one leaf. -/
theorem timesLeafCount_insertTime (tm : String) (r : SRow)
    (ts : List (String × List SRow)) :
    timesLeafCount (insertTime tm r ts) = timesLeafCount ts + 1 := by
  induction ts with
  | nil => simp [insertTime, timesLeafCount]
  | cons p rest ih =>
    obtain ⟨k, ls⟩ := p
    by_cases h : k = tm <;> simp [insertTime, h, timesLeafCount] at * <;> omega

/-- Inserting a row into the tree adds exactly one leaf. -/
theorem leafCount_insertLeaf (d tm : String) (r : SRow) (t : SideTree) :
    leafCount (insertLeaf d tm r t) = leafCount t + 1 := by
  induction t with
  | nil => simp [insertLeaf, leafCount, timesLeafCount]
  | cons p rest ih =>
    obtain ⟨k, ts⟩ := p
    by_cases h : k = d <;>
      simp [insertLeaf, h, leafCount, timesLeafCount_insertTime] at * <;> omega

/-- Generalized accumulator form of the tree construction. -/
theorem leafCount_build_go (rows : List SRow) (t : SideTree) :
    leafCount (rows.foldl
      (fun t2 r => if rowKept r then insertLeaf (rowDate r) (rowTime r) r t2 else t2) t)
      = leafCount t + (rows.filter rowKept).length := by
  induction rows generalizing t with
  | nil => simp
  | cons r rows ih =>
    simp only [List.foldl_cons]
    cases h : rowKept r <;>
      simp [h, ih, List.filter_cons, leafCount_insertLeaf] <;> omega

/-- Marker visibility after one run from the freshly generated document:
on the time-bound branch a marker is visible when its coordinate key was
collected from a passing sidebar item and its own toggle is on; on the cheap
branch it is visible exactly when its toggle is on. -/
theorem markerVisible_applyFilters (fs : FilterState) (rs : List ClientRecord)
    (r : ClientRecord) (hrmem : r ∈ rs) (huniq : (rs.map coordsOf).Nodup) :
    markerVisibleIn (applyFilters fs (pageOf rs) (initialVis (pageOf rs))) (markerOf r)
      = (if timeFilterOn fs = true
         then shouldShow fs r.sidebarT r.rdatetime && toggleOK fs r.markerT
         else toggleOK fs r.markerT) := by
  by_cases h : timeFilterOn fs = true
  · rw [if_pos h]
    unfold markerVisibleIn
    rw [clusterShown_rebuild fs _ _ h, Bool.and_true]
    have hIn : markerOf r ∈ (applyFilters fs (pageOf rs) (initialVis (pageOf rs))).inCluster
        ↔ (decide (coordsOf r ∈ filteredCoords fs (pageOf rs))
            && toggleOK fs r.markerT) = true := by
      simp only [applyFilters, h, if_pos]
      constructor
      · intro hx
        exact (List.mem_filter.mp hx).2
      · intro hx
        exact List.mem_filter.mpr ⟨List.mem_map_of_mem markerOf hrmem, hx⟩
    have hcd : decide (coordsOf r ∈ filteredCoords fs (pageOf rs))
        = shouldShow fs r.sidebarT r.rdatetime := by
      cases hb : shouldShow fs r.sidebarT r.rdatetime
      · exact decide_eq_false
          (fun hmem => by
            simpa [hb] using (mem_filteredCoords_iff fs rs huniq r hrmem).mp hmem)
      · exact decide_eq_true ((mem_filteredCoords_iff fs rs huniq r hrmem).mpr hb)
    cases hb2 : (decide (coordsOf r ∈ filteredCoords fs (pageOf rs))
        && toggleOK fs r.markerT)
    · rw [decide_eq_false (fun hmem => by simpa [hb2] using hIn.mp hmem)]
      rw [← hcd, hb2]
    · rw [decide_eq_true (hIn.mpr hb2), ← hcd, hb2]
  · have hfalse : timeFilterOn fs = false := by
      revert h
      cases timeFilterOn fs <;> simp
    rw [if_neg h]
    unfold markerVisibleIn
    rw [clusterShown_cheap fs _ _ hfalse]
    have hclus : (applyFilters fs (pageOf rs) (initialVis (pageOf rs))).inCluster
        = (pageOf rs).allMarkers := by
      simp [applyFilters, hfalse, initialVis]
    rw [hclus,
      decide_eq_true
        (show markerOf r ∈ (pageOf rs).allMarkers from List.mem_map_of_mem markerOf hrmem),
      Bool.true_and]
    rfl

/-! ### Claim theorems -/

/-- C1 counterexample: two asymmetries between the map layer and the sidebar
tree after one `applyFilters` run.  First, an existing `.mkv` file is a
marker-side video but a sidebar-side image, so under videos-only its marker
is visible while its tree item is hidden.  Second, two image records sharing
coordinates under an active time bound: the out-of-range record's marker is
re-added because the in-range record contributes the same coordinate key,
while its tree item is hidden. -/
theorem C1_counterexample :
    (markerVisibleIn
        (applyFilters fsVideosOnly (pageOf [recMkv]) (initialVis (pageOf [recMkv])))
        (markerOf recMkv) = true
      ∧ (applyFilters fsVideosOnly (pageOf [recMkv])
          (initialVis (pageOf [recMkv]))).itemDisplay = [false])
    ∧ (markerVisibleIn
        (applyFilters fsImagesTime (pageOf [recEarly, recLate])
          (initialVis (pageOf [recEarly, recLate]))) (markerOf recLate) = true
      ∧ (applyFilters fsImagesTime (pageOf [recEarly, recLate])
          (initialVis (pageOf [recEarly, recLate]))).itemDisplay = [true, false]) := by
  decide

/-- C1 (amended): for a record whose sidebar classification agrees with its
marker classification, on a page where no two records share a coordinate
key, the sidebar item visibility after one `applyFilters` run from the
freshly generated document equals the record's marker visibility. -/
theorem C1_view_symmetry_amended (fs : FilterState) (rs : List ClientRecord)
    (i : Nat) (hi : i < rs.length)
    (htype : (rs.get ⟨i, hi⟩).sidebarT = (rs.get ⟨i, hi⟩).markerT)
    (huniq : (rs.map coordsOf).Nodup) :
    (applyFilters fs (pageOf rs) (initialVis (pageOf rs))).itemDisplay.get? i
      = some (markerVisibleIn (applyFilters fs (pageOf rs) (initialVis (pageOf rs)))
          (markerOf (rs.get ⟨i, hi⟩))) := by
  have hrmem : rs.get ⟨i, hi⟩ ∈ rs := List.get_mem rs i hi
  rw [itemDisplay_applyFilters, List.get?_map, List.get?_eq_get hi,
    markerVisible_applyFilters fs rs _ hrmem huniq]
  simp only [Option.map_some']
  congr 1
  by_cases h : timeFilterOn fs = true
  · rw [if_pos h]
    unfold shouldShow
    rw [htype, typeMatch_eq_toggleOK]
    cases toggleOK fs (rs.get ⟨i, hi⟩).markerT <;>
      cases timeMatch fs (rs.get ⟨i, hi⟩).rdatetime <;> rfl
  · have hfalse : timeFilterOn fs = false := by
      revert h
      cases timeFilterOn fs <;> simp
    rw [if_neg h]
    unfold shouldShow
    rw [timeMatch_inactive fs _ hfalse, htype, typeMatch_eq_toggleOK, Bool.and_true]

/-- C1 witness: a record equally classified on both sides, with unique
coordinates, under images-only with an active time bound. -/
theorem C1_view_symmetry_witness :
    (applyFilters fsSym (pageOf [recSym]) (initialVis (pageOf [recSym]))).itemDisplay.get? 0
      = some (markerVisibleIn
          (applyFilters fsSym (pageOf [recSym]) (initialVis (pageOf [recSym])))
          (markerOf recSym)) :=
  C1_view_symmetry_amended fsSym [recSym] 0 (by decide) (by decide) (by decide)

/-- C2 (amended): a record with no timestamp (empty `data-datetime`) has
`time_match = true` under every filter state, bounds set or not — the
`if (itemDateTime && ...)` guard skips the whole time check for undated
records instead of rejecting them. -/
theorem C2_undated_always_time_matched (fs : FilterState) :
    timeMatch fs DateAttr.empty = true := rfl

/-- C2 counterexample: with only the start bound set, an undated record still
has `time_match = true`, where the claim requires `false`. -/
theorem C2_counterexample :
    fsStartOnly.timeStart = some 0 ∧ fsStartOnly.timeEnd = none
      ∧ timeMatch fsStartOnly DateAttr.empty = true := by
  decide

/-- C3 (amended): for media-origin rows the category is a deterministic pure
function of the media path and file existence: `video` exactly when a media
reference is given, the file exists on disk, and the lowercased path suffix
is in the video-extension set; in particular a row whose file does not exist
is categorized `image` regardless of its extension. -/
theorem C3_categorization_amended (title p : String) (ex : Bool) :
    markerType "MediaMarkers" title p ex
      = (if mediaPathGiven p && ex && videoExts.contains (lowerStr (pathSuffix p))
         then MType.video else MType.image)
    ∧ markerType "MediaMarkers" title p false = MType.image := by
  constructor
  · unfold markerType markerIsVideo
    rw [if_neg (by decide)]
    cases hg : mediaPathGiven p <;> cases ex <;> simp [hg]
  · unfold markerType markerIsVideo
    rw [if_neg (by decide)]
    cases hg : mediaPathGiven p <;> simp [hg]

/-- C3 counterexample: a media row referencing `vid.mp4`, whose extension is
in the video set, is categorized `image` when the file does not exist and
`video` when it does — category assignment depends on file existence. -/
theorem C3_counterexample :
    markerType "MediaMarkers" "t" "vid.mp4" false = MType.image
      ∧ markerType "MediaMarkers" "t" "vid.mp4" true = MType.video
      ∧ videoExts.contains (lowerStr (pathSuffix "vid.mp4")) = true := by
  decide

/-- C4 (amended): the flattened leaf count of the chronological tree equals
the number of rows whose computed date string is nonempty and different from
`"nan"` — each such row appears exactly once, while a row with no parseable
datetime whose stringified date cell is `"nan"` is dropped from the tree
rather than grouped under an Unknown Date bucket. -/
theorem C4_tree_leaf_count_amended (rows : List SRow) :
    leafCount (buildTree rows) = (rows.filter rowKept).length := by
  have h := leafCount_build_go rows []
  simp only [buildTree]
  rw [h]
  simp [leafCount]

/-- C4 counterexample: a single row with no datetime and a `NaN` date cell
(stringified `"nan"`) produces an empty tree: zero leaves for one record. -/
theorem C4_counterexample :
    rowNanDate.datetimeParsed = none
      ∧ buildTree [rowNanDate] = []
      ∧ leafCount (buildTree [rowNanDate]) = 0
      ∧ [rowNanDate].length = 1 := by
  decide

/-- C5: normalization keeps exactly the rows with both coordinates present
(each with multiplicity preserved), keeps no row missing either coordinate,
and the number of dropped rows is the raw count minus the kept count. -/
theorem C5_coordinate_normalization (rows : List RawRow) :
    (dropnaCoords rows).length
        + (rows.filter (fun r => !(hasCoords r))).length = rows.length
    ∧ (dropnaCoords rows).all hasCoords = true
    ∧ ∀ r : RawRow,
        rowCount (dropnaCoords rows) r = if hasCoords r then rowCount rows r else 0 := by
  refine ⟨?_, ?_, fun r => rowCount_dropna rows r⟩
  · induction rows with
    | nil => rfl
    | cons a rows ih =>
      cases h : hasCoords a <;>
        simp [dropnaCoords, List.filter_cons, h] at ih ⊢ <;> omega
  · simp only [List.all_eq_true]
    exact fun r hr => List.of_mem_filter hr

/-- C6: for event-origin records `type_match` is exactly the corresponding
event toggle, whatever the media selector; concretely, an ATT-location
record with the ATT toggle off, the ankle toggle on and the show-all media
selector is invisible in both views after a filter run. -/
theorem C6_event_toggle_overrides :
    (∀ fs : FilterState,
        typeMatch fs MType.att_location = fs.showATT
          ∧ typeMatch fs MType.ankle_monitor = fs.showAnkle)
    ∧ (applyFilters fsC6 (pageOf [recATT]) (initialVis (pageOf [recATT]))).itemDisplay = [false]
    ∧ markerVisibleIn (applyFilters fsC6 (pageOf [recATT]) (initialVis (pageOf [recATT])))
        (markerOf recATT) = false := by
  refine ⟨fun fs => ⟨rfl, rfl⟩, by decide, by decide⟩

/-- C7: for a record with a parseable timestamp and at least one bound set,
`time_match` holds exactly when the timestamp is at or after any set start
bound and at or before any set end bound — both endpoints inclusive. -/
theorem C7_time_bounds_inclusive (fs : FilterState) (t : Int)
    (h : timeFilterOn fs = true) :
    timeMatch fs (DateAttr.given (JSDate.val t))
      = ((fs.timeStart.all fun s => decide (s ≤ t))
          && (fs.timeEnd.all fun e => decide (t ≤ e))) := by
  simp only [timeMatch, h, if_true]
  rcases fs.timeStart with _ | s <;> rcases fs.timeEnd with _ | e <;>
    simp [Option.all, jsBefore, jsAfter, ← decide_not, decide_eq_decide]

/-- C7 witness: the timestamp 10:00 of 2023-05-01 (600 minutes into the day)
against the bounds 09:00–11:00 (540 and 660). -/
theorem C7_time_bounds_inclusive_witness :
    timeFilterOn fsBounds = true
      ∧ timeMatch fsBounds (DateAttr.given (JSDate.val 600))
          = ((fsBounds.timeStart.all fun s => decide (s ≤ (600 : Int)))
              && (fsBounds.timeEnd.all fun e => decide ((600 : Int) ≤ e))) :=
  ⟨by decide, C7_time_bounds_inclusive fsBounds 600 (by decide)⟩

/-- C8: one run of `applyFilters` is idempotent — a second run under the same
filter state leaves cluster membership, the cluster on-map flags, and every
sidebar item display unchanged. -/
theorem C8_applyFilters_idempotent (fs : FilterState) (page : Page) (v : VisState) :
    applyFilters fs page (applyFilters fs page v) = applyFilters fs page v := by
  by_cases h : timeFilterOn fs = true <;> simp [applyFilters, h]

/-- C9: a row whose rendering raises is skipped with one warning while every
other row still produces its marker — the loop output on `pre ++ bad :: post`
is the concatenation of the outputs on `pre` and `post`. -/
theorem C9_row_failure_isolated (pre post : List MRow) (bad : MRow) (e : String)
    (h : renderRow bad = .error e) :
    (addMarkersLoop (pre ++ bad :: post)).1
        = (addMarkersLoop pre).1 ++ (addMarkersLoop post).1
    ∧ (addMarkersLoop (pre ++ bad :: post)).2
        = (addMarkersLoop pre).2 + (addMarkersLoop post).2 + 1 := by
  constructor
  · simp [addMarkersLoop_eq, List.filterMap_append, List.filterMap_cons, h,
      Except.toOption]
  · simp [addMarkersLoop_eq, List.filter_append, List.filter_cons, h,
      Except.toOption]
    omega

/-- C9 witness: a middle row whose latitude cell is the non-numeric string
`"abc"` fails `float(...)`; the two surrounding rows still yield markers. -/
theorem C9_row_failure_isolated_witness :
    renderRow mrowBad = Except.error "abc"
      ∧ (addMarkersLoop ([mrowGood] ++ mrowBad :: [mrowGood2])).1
          = (addMarkersLoop [mrowGood]).1 ++ (addMarkersLoop [mrowGood2]).1 :=
  ⟨rfl, (C9_row_failure_isolated [mrowGood] [mrowGood2] mrowBad "abc" rfl).1⟩

/-- C10: the sidebar classifies a media record `video` exactly when one of
the four substrings `.mp4`, `.mov`, `.avi`, `.wmv` occurs anywhere in the
lowercased media path; `.mkv`, `.webm` and `.m4v` paths are sidebar images
(even when the marker side classifies the same existing file as video), and
the substring may occur away from the real extension. -/
theorem C10_sidebar_video_substring :
    (∀ p : String,
        decide (sidebarMediaType p = MType.video)
          = sidebarVideoSubs.any (fun ex2 => strContains (lowerStr p) ex2))
    ∧ sidebarFileType "MediaMarkers" "c" "clip.mkv" = MType.image
    ∧ sidebarFileType "MediaMarkers" "c" "clip.webm" = MType.image
    ∧ sidebarFileType "MediaMarkers" "c" "clip.m4v" = MType.image
    ∧ sidebarFileType "MediaMarkers" "c" "shot.mp4.jpg" = MType.video
    ∧ markerType "MediaMarkers" "c" "clip.mkv" true = MType.video := by
  refine ⟨fun p => ?_, by decide, by decide, by decide, by decide, by decide⟩
  unfold sidebarMediaType
  cases h : sidebarVideoSubs.any (fun ex2 => strContains (lowerStr p) ex2) <;>
    simp [h]

end MediaMapMaker
